import Mathlib

/-!
Verification of the voice-ptt push-to-talk dictation daemon.

This file shallowly embeds the parts of the Rust sources that the
specification claims talk about:

  * src/audio.rs   - the gated audio-capture callback (primary, cpal mode)
  * src/main.rs    - the event-loop press/release branches for both capture
                     modes and the detached transcription jobs they spawn
  * src/injector.rs - SystemInjector::type_text for Linux and macOS
  * src/api.rs     - WhisperClient::transcribe_wav_bytes response handling

Pure data transformations are embedded as Lean functions; the effectful
controller and injector paths are embedded as functions from their decision
inputs (environment outcomes such as process-spawn success or HTTP status)
to the ordered list of observable actions they perform plus their returned
result.  Machine integers that matter (i16 samples, file sizes, HTTP status
codes) are modelled as Int or Nat; no arithmetic here can overflow the
source types on the values used.
-/

/-! ## Audio capture model (src/audio.rs, src/main.rs cpal branches)

The cpal callback thread and the event loop share a sample buffer behind a
mutex and an atomic recording gate.  Every buffer or gate access in the
source happens under the lock or is a single atomic operation, so an
execution is a sequence of atomic events.  A frame delivery carries the i16
sample values the callback would append; for the F32 stream the callback
appends the per-sample clamp-and-scale conversions in the same order, so
frames here stand for the appended sample values in either stream format.
-/

/-- Shared capture state: the sample buffer (audio_buffer) and the atomic
recording gate (is_recording). -/
structure CapSt where
  buf : List Int
  gate : Bool
  deriving DecidableEq

/-- Atomic events on the shared capture state.  deliver is one callback
invocation (audio.rs lines 48-56 and 63-68); the other three are the
event-loop operations in main.rs lines 142-145 and 178-185. -/
inductive CapEv where
  | deliver (frame : List Int)
  | clearBuf
  | setGate
  | clearGate
  deriving DecidableEq

/-- One atomic step.  A delivered frame is appended only when the gate is
set (audio.rs lines 49 and 64); otherwise the frame is dropped. -/
def capStep (s : CapSt) : CapEv → CapSt
  | CapEv.deliver f => if s.gate then ⟨s.buf ++ f, s.gate⟩ else s
  | CapEv.clearBuf => ⟨[], s.gate⟩
  | CapEv.setGate => ⟨s.buf, true⟩
  | CapEv.clearGate => ⟨s.buf, false⟩

/-- Run a sequence of atomic events from a state. -/
def capRun (s : CapSt) (evs : List CapEv) : CapSt :=
  evs.foldl capStep s

/-- The concatenation, in delivery order, of exactly those frames delivered
while the (evolving) gate is true; g is the gate value at the head of the
event sequence. -/
def gatedSamples (g : Bool) : List CapEv → List Int
  | [] => []
  | CapEv.deliver f :: r => (if g then f else []) ++ gatedSamples g r
  | CapEv.clearBuf :: r => gatedSamples g r
  | CapEv.setGate :: r => gatedSamples true r
  | CapEv.clearGate :: r => gatedSamples false r

/-- The event sequence of one press/release cycle as the source emits it:
arbitrary deliveries while idle, then the start transition (clear the
buffer under the lock, then set the gate: main.rs lines 142-145), then the
deliveries of the recording period, then the gate clear (main.rs line 178),
then arbitrary deliveries racing the snapshot copy (main.rs lines 182-185
takes the copy after the gate clear). -/
def cycleEvents (pre mid post : List (List Int)) : List CapEv :=
  pre.map CapEv.deliver
    ++ [CapEv.clearBuf, CapEv.setGate]
    ++ mid.map CapEv.deliver
    ++ [CapEv.clearGate]
    ++ post.map CapEv.deliver

/-! ## String helpers shared by the injector and api models

The Rust sources call str::to_lowercase, str::trim and str::replace.  The
first two are Unicode functions; this development models their ASCII
fragment (every string any theorem below touches is ASCII, where the
Unicode and ASCII behaviours coincide).  str::replace is modelled for a
single-character pattern, which is all the source uses. -/

/-- ASCII fragment of the char lowercasing done by Rust str::to_lowercase. -/
def lowercaseAsciiChar (c : Char) : Char :=
  if 'A' ≤ c ∧ c ≤ 'Z' then Char.ofNat (c.toNat + 32) else c

/-- ASCII fragment of Rust str::to_lowercase. -/
def lowercaseAscii (s : String) : String :=
  String.mk (s.data.map lowercaseAsciiChar)

/-- ASCII fragment of Rust char::is_whitespace. -/
def isRustWhitespace (c : Char) : Bool :=
  c == ' ' || c == '\t' || c == '\n' || c == '\r'
    || c == Char.ofNat 11 || c == Char.ofNat 12

/-- ASCII fragment of Rust str::trim: drop whitespace from both ends. -/
def trimAscii (s : String) : String :=
  String.mk (((s.data.dropWhile isRustWhitespace).reverse.dropWhile
    isRustWhitespace).reverse)

/-- Rust str::replace for a single-character pattern: every occurrence of
pat is replaced by rep. -/
def rustReplaceChar (pat : Char) (rep : List Char) : List Char → List Char
  | [] => []
  | c :: rest => (if c == pat then rep else [c]) ++ rustReplaceChar pat rep rest

/-! ## Input injector model (src/injector.rs, type_text)

type_text is effectful; it is modelled per platform as a function from the
text, the timing parameters, the paste-override map (as its iteration-order
list of key/value pairs) and the outcomes of the external helpers to the
ordered list of actions performed plus the returned Result.  Each early
Err return carries exactly the actions performed before the failure. -/

/-- Observable injector actions, in program order. -/
inductive Act where
  | sleepMs (ms : Nat)
  | spawnXsel
  | writeClipboard (text : String)
  | waitXsel
  | queryWindowClass
  | pressKey (shortcut : String)
  | runScript (script : String)
  deriving DecidableEq

/-- Which helper invocation failed, mirroring the Err early returns of
type_text. -/
inductive InjErr where
  | xselSpawnFailed
  | stdinWriteFailed
  | xselWaitFailed
  | pasteKeyFailed
  | osascriptFailed
  deriving DecidableEq

/-- Outcomes of the external helpers the Linux path consults: success of
the xsel spawn, stdin write and wait, the window-class query result (none
models Err from Command::output, some gives the raw stdout), and success of
the xdotool key invocation. -/
structure LinuxEnv where
  xselSpawnOk : Bool
  stdinWriteOk : Bool
  waitOk : Bool
  classQuery : Option String
  keyOk : Bool

/-- The for-loop over config.paste_overrides in injector.rs lines 95-102:
threads the (paste_key, found) pair, breaking at the first key whose
lowercase form equals the lowercased window class. -/
def pasteLoop (lowerClass : String) :
    List (String × String) → String × Bool → String × Bool
  | [], st => st
  | kv :: rest, st =>
      if lowercaseAscii kv.1 == lowerClass then (kv.2, true)
      else pasteLoop lowerClass rest st

/-- The paste-shortcut resolution of injector.rs lines 82-110: paste_key
starts as ctrl+v; a failed query leaves it; otherwise the stdout is
trimmed, lowercased and looked up by the loop, and a miss resets the
default. -/
def resolvePasteKey (overrides : List (String × String))
    (queryResult : Option String) : String :=
  match queryResult with
  | none => "ctrl+v"
  | some out =>
      let lowerClass := lowercaseAscii (trimAscii out)
      let r := pasteLoop lowerClass overrides ("ctrl+v", false)
      if r.2 = false then "ctrl+v" else r.1

/-- Specification-shaped lookup: the value of the first override entry, in
iteration order, whose key equals the window class under ASCII
case-folding, and ctrl+v when the query failed or no entry matches. -/
def pasteKeySpec (overrides : List (String × String))
    (queryResult : Option String) : String :=
  match queryResult with
  | none => "ctrl+v"
  | some out =>
      match overrides.find? (fun kv =>
          lowercaseAscii kv.1 == lowercaseAscii (trimAscii out)) with
      | some kv => kv.2
      | none => "ctrl+v"

/-- The Linux path of type_text (injector.rs lines 48-117). -/
def typeTextLinux (text : String) (initialDelayMs : Nat)
    (overrides : List (String × String)) (env : LinuxEnv) :
    List Act × Except InjErr Unit :=
  if text == "" then ([], Except.ok ())
  else if env.xselSpawnOk = false then
    ([Act.sleepMs initialDelayMs, Act.spawnXsel],
      Except.error InjErr.xselSpawnFailed)
  else if env.stdinWriteOk = false then
    ([Act.sleepMs initialDelayMs, Act.spawnXsel, Act.writeClipboard text],
      Except.error InjErr.stdinWriteFailed)
  else if env.waitOk = false then
    ([Act.sleepMs initialDelayMs, Act.spawnXsel, Act.writeClipboard text,
        Act.waitXsel],
      Except.error InjErr.xselWaitFailed)
  else
    let tr := [Act.sleepMs initialDelayMs, Act.spawnXsel,
      Act.writeClipboard text, Act.waitXsel, Act.sleepMs 50,
      Act.queryWindowClass,
      Act.pressKey (resolvePasteKey overrides env.classQuery)]
    if env.keyOk = false then (tr, Except.error InjErr.pasteKeyFailed)
    else (tr, Except.ok ())

/-- The escaping applied to the text embedded in the AppleScript string
literal (injector.rs line 131): first every quote is turned into backslash
quote, then every backslash is doubled, in that source order. -/
def macEscape (text : String) : String :=
  String.mk (rustReplaceChar '\\' ['\\', '\\']
    (rustReplaceChar '"' ['\\', '"'] text.data))

/-- The escaping the spec asks for: every quote and every backslash of the
original text is preceded by one backslash. -/
def macEscapeSpec (text : String) : String :=
  String.mk (text.data.flatMap (fun c =>
    if c == '"' || c == '\\' then ['\\', c] else [c]))

/-- Everything of the AppleScript before the embedded text (injector.rs
lines 123-131; the backslash-newline continuations of the Rust literal
swallow the newline and all leading whitespace of the next line). -/
def appleScriptHeader : String :=
  "set oldClipboard to the clipboard\nset the clipboard to \""

/-- Everything of the AppleScript after the embedded text. -/
def appleScriptFooter : String :=
  "\"\ntell application \"System Events\"\nkeystroke \"v\" using command down\nend tell\ndelay 0.1\nset the clipboard to oldClipboard"

/-- The full AppleScript passed to osascript for a given text. -/
def buildAppleScript (text : String) : String :=
  appleScriptHeader ++ macEscape text ++ appleScriptFooter

/-- The macOS path of type_text (injector.rs lines 48-59 and 119-138). -/
def typeTextMac (text : String) (initialDelayMs : Nat) (osascriptOk : Bool) :
    List Act × Except InjErr Unit :=
  if text == "" then ([], Except.ok ())
  else
    let tr := [Act.sleepMs initialDelayMs,
      Act.runScript (buildAppleScript text)]
    if osascriptOk = false then (tr, Except.error InjErr.osascriptFailed)
    else (tr, Except.ok ())

/-! ## Transcription client model (src/api.rs, transcribe_wav_bytes)

The HTTP exchange is abstracted to its decision inputs: the response status
code, the response body text, and the result of parsing the body as the
expected JSON object (some text on success).  The request-building half
(multipart form, bearer auth) carries no claim content. -/

/-- reqwest StatusCode::is_success: status in 200..=299. -/
def isSuccessStatus (status : Nat) : Bool :=
  decide (200 ≤ status) && decide (status < 300)

/-- Response handling of transcribe_wav_bytes (api.rs lines 77-88): a
non-success status bails with the body behind the prose prefix; otherwise
a JSON parse failure is surfaced with context and a parsed text field is
returned trimmed. -/
def transcribeWavBytes (status : Nat) (body : String)
    (parsed : Option String) : Except String String :=
  if isSuccessStatus status = false then
    Except.error ("OpenAI API Error: " ++ body)
  else
    match parsed with
    | none => Except.error "Failed to parse OpenAI response"
    | some t => Except.ok (trimAscii t)

/-! ## Event-loop release branches and detached jobs (src/main.rs)

The release (key-up) branches of the main loop and the detached jobs they
spawn are modelled as action lists.  The spawned-job boundary is kept
explicit: the release branch emits a spawn action carrying the job input,
and a separate expansion step appends the actions the job itself performs,
so that what runs inside versus outside a job is visible in the trace. -/

/-- Observable actions of the event loop and of the detached transcription
jobs. -/
inductive MainAct where
  | playSound (enabled : Bool) (path : String)
  | killRecorder
  | waitRecorder
  | spawnCpalJob (snapshot : List Int)
  | spawnWavJob (path : String)
  | warnEmptyFile
  | transcribeReq (snapshot : List Int)
  | transcribeFileReq (path : String)
  | injectText (text : String)
  | notifyError (title message : String)
  | removeFile (path : String)
  deriving DecidableEq

/-- The cpal release branch (main.rs lines 177-218): when recording, clear
the gate, play the end earcon, snapshot the buffer, and spawn a
transcription job only for a non-empty snapshot.  Returns the gate value
after the branch and the actions performed. -/
def cpalRelease (soundEnabled : Bool) (soundEnd : String)
    (recording : Bool) (buf : List Int) : Bool × List MainAct :=
  if recording then
    if buf ≠ [] then
      (false, [MainAct.playSound soundEnabled soundEnd,
        MainAct.spawnCpalJob buf])
    else
      (false, [MainAct.playSound soundEnabled soundEnd])
  else (recording, [])

/-- The detached cpal job (main.rs lines 192-216): one transcription
request on the snapshot, then on success an injection attempt, on failure
an error notification.  jobEnv is the transcription outcome. -/
def cpalJobTrace (jobEnv : Except String String) (snapshot : List Int) :
    List MainAct :=
  MainAct.transcribeReq snapshot ::
    match jobEnv with
    | Except.ok text => [MainAct.injectText text]
    | Except.error e => [MainAct.notifyError "Voice PTT Error" e]

/-- Expansion of a spawned cpal job into the actions it performs. -/
def expandCpal (jobEnv : Except String String) : MainAct → List MainAct
  | MainAct.spawnCpalJob s => MainAct.spawnCpalJob s :: cpalJobTrace jobEnv s
  | a => [a]

/-- The cpal release branch together with the actions of the job it
spawned, if any. -/
def cpalReleaseTrace (soundEnabled : Bool) (soundEnd : String)
    (recording : Bool) (buf : List Int) (jobEnv : Except String String) :
    List MainAct :=
  ((cpalRelease soundEnabled soundEnd recording buf).2).flatMap
    (expandCpal jobEnv)

/-- The recorded-file size check of main.rs lines 233-235: metadata
readable and length strictly above 44 bytes.  meta is none when the
metadata read fails, some length otherwise. -/
def sizeOk (meta : Option Nat) : Bool :=
  match meta with
  | some len => decide (44 < len)
  | none => false

/-- The pw-record release branch (main.rs lines 224-271): kill and wait the
recorder, play the end earcon, then for a taken file path spawn a
transcription job when the size check passes and only warn otherwise. -/
def pwRelease (soundEnabled : Bool) (soundEnd : String)
    (recorderPresent : Bool) (currentFile : Option String)
    (meta : Option Nat) : List MainAct :=
  if recorderPresent then
    [MainAct.killRecorder, MainAct.waitRecorder,
        MainAct.playSound soundEnabled soundEnd]
      ++ match currentFile with
        | some f =>
            if sizeOk meta then [MainAct.spawnWavJob f]
            else [MainAct.warnEmptyFile]
        | none => []
  else []

/-- The detached pw-record job (main.rs lines 241-266): one transcription
request on the file, then an injection attempt or an error notification,
then the temp-file deletion, which runs in both outcomes. -/
def wavJobTrace (jobEnv : Except String String) (f : String) :
    List MainAct :=
  (MainAct.transcribeFileReq f ::
    match jobEnv with
    | Except.ok text => [MainAct.injectText text]
    | Except.error e => [MainAct.notifyError "Voice PTT Error" e])
  ++ [MainAct.removeFile f]

/-- Expansion of a spawned pw-record job into the actions it performs. -/
def expandPw (jobEnv : Except String String) : MainAct → List MainAct
  | MainAct.spawnWavJob f => MainAct.spawnWavJob f :: wavJobTrace jobEnv f
  | a => [a]

/-- The pw-record release branch together with the actions of the job it
spawned, if any. -/
def pwReleaseTrace (soundEnabled : Bool) (soundEnd : String)
    (recorderPresent : Bool) (currentFile : Option String)
    (meta : Option Nat) (jobEnv : Except String String) : List MainAct :=
  (pwRelease soundEnabled soundEnd recorderPresent currentFile meta).flatMap
    (expandPw jobEnv)

/-- Recognizer for keystroke-synthesis actions in an injector trace. -/
def isPressKey : Act → Bool
  | Act.pressKey _ => true
  | _ => false

/-! ## Theorems -/

theorem capRun_append (s : CapSt) (a b : List CapEv) :
    capRun s (a ++ b) = capRun (capRun s a) b := by
  simp [capRun, List.foldl_append]

theorem capRun_deliver_gate_false (fs : List (List Int)) (s : CapSt)
    (h : s.gate = false) : capRun s (fs.map CapEv.deliver) = s := by
  induction fs with
  | nil => rfl
  | cons f fs ih =>
      simp only [List.map_cons, capRun, List.foldl_cons]
      have hstep : capStep s (CapEv.deliver f) = s := by
        simp [capStep, h]
      rw [hstep]
      exact ih

theorem capRun_deliver_gate_true (fs : List (List Int)) (buf : List Int) :
    capRun ⟨buf, true⟩ (fs.map CapEv.deliver) = ⟨buf ++ fs.flatten, true⟩ := by
  induction fs generalizing buf with
  | nil => simp [capRun]
  | cons f fs ih =>
      simp only [List.map_cons, capRun, List.foldl_cons]
      have hstep : capStep ⟨buf, true⟩ (CapEv.deliver f) = ⟨buf ++ f, true⟩ := by
        simp [capStep]
      rw [hstep]
      have := ih (buf ++ f)
      simp only [capRun] at this
      rw [this]
      simp [List.flatten]

theorem gatedSamples_deliver (fs : List (List Int)) (g : Bool) (r : List CapEv) :
    gatedSamples g (fs.map CapEv.deliver ++ r) =
      (if g then fs.flatten else []) ++ gatedSamples g r := by
  induction fs with
  | nil => simp
  | cons f fs ih =>
      cases g <;> simp [gatedSamples, ih, List.flatten]

theorem gatedSamples_deliver_nil (fs : List (List Int)) (g : Bool) :
    gatedSamples g (fs.map CapEv.deliver) = if g then fs.flatten else [] := by
  have h := gatedSamples_deliver fs g []
  simpa [gatedSamples] using h

/-- C1: for every press/release cycle in cpal mode, the buffer snapshot
handed to the transcription job (the buffer contents read after the gate
clear) equals the concatenation, in callback delivery order, of exactly
those samples delivered while the recording gate was true.  The cycle trace
clears the buffer under the lock before setting the gate and clears the
gate before the snapshot copy, exactly as main.rs lines 142-145 and 178-185
do; the pre-existing buffer contents and any frames delivered before the
start or between the gate clear and the copy do not appear in the
snapshot. -/
theorem cpal_snapshot_eq_gated_delivery (s0 : CapSt)
    (pre mid post : List (List Int)) (h : s0.gate = false) :
    (capRun s0 (cycleEvents pre mid post)).buf
        = gatedSamples s0.gate (cycleEvents pre mid post)
      ∧ gatedSamples s0.gate (cycleEvents pre mid post) = mid.flatten := by
  have hg : gatedSamples s0.gate (cycleEvents pre mid post) = mid.flatten := by
    rw [h]
    simp [cycleEvents, gatedSamples_deliver, gatedSamples_deliver_nil, gatedSamples]
  have hb : (capRun s0 (cycleEvents pre mid post)).buf = mid.flatten := by
    rw [cycleEvents, capRun_append, capRun_append, capRun_append, capRun_append]
    rw [capRun_deliver_gate_false pre s0 h]
    have h2 : capRun s0 [CapEv.clearBuf, CapEv.setGate] = ⟨[], true⟩ := by
      simp [capRun, capStep]
    rw [h2, capRun_deliver_gate_true]
    have h3 : capRun ⟨[] ++ mid.flatten, true⟩ [CapEv.clearGate]
        = ⟨mid.flatten, false⟩ := by
      simp [capRun, capStep]
    rw [h3, capRun_deliver_gate_false post ⟨mid.flatten, false⟩ rfl]
  exact ⟨hb.trans hg.symm, hg⟩

/-- Witness for C1 at a concrete cycle: stale buffer [9], one frame [1]
delivered before start, frames [2, 3] and [4] delivered while recording,
frame [5] delivered between gate clear and snapshot. -/
theorem cpal_snapshot_eq_gated_delivery_witness :
    (CapSt.mk [9] false).gate = false
      ∧ ((capRun ⟨[9], false⟩ (cycleEvents [[1]] [[2, 3], [4]] [[5]])).buf
           = gatedSamples (CapSt.mk [9] false).gate
               (cycleEvents [[1]] [[2, 3], [4]] [[5]])
         ∧ gatedSamples (CapSt.mk [9] false).gate
               (cycleEvents [[1]] [[2, 3], [4]] [[5]])
           = [[2, 3], [4]].flatten) :=
  ⟨rfl, cpal_snapshot_eq_gated_delivery ⟨[9], false⟩ [[1]] [[2, 3], [4]] [[5]] rfl⟩

theorem pasteLoop_eq_find (ov : List (String × String)) (lc : String) :
    (if (pasteLoop lc ov ("ctrl+v", false)).2 = false then "ctrl+v"
     else (pasteLoop lc ov ("ctrl+v", false)).1)
      = (match ov.find? (fun kv => lowercaseAscii kv.1 == lc) with
        | some kv => kv.2
        | none => "ctrl+v") := by
  induction ov with
  | nil => simp [pasteLoop, List.find?]
  | cons kv rest ih =>
      cases h : (lowercaseAscii kv.1 == lc) with
      | true => simp [pasteLoop, List.find?, h]
      | false =>
          simp only [pasteLoop, h, List.find?, Bool.false_eq_true, if_false]
          exact ih

theorem resolvePasteKey_eq_spec (ov : List (String × String))
    (q : Option String) : resolvePasteKey ov q = pasteKeySpec ov q := by
  cases q with
  | none => rfl
  | some out =>
      simp only [resolvePasteKey, pasteKeySpec]
      exact pasteLoop_eq_find ov (lowercaseAscii (trimAscii out))

/-- C2 (amended): in the Linux clipboard-paste path, for every
configuration and every window-class query outcome, the synthesized paste
shortcut is the value of the first paste_overrides entry, in map iteration
order, whose key equals the window class under ASCII case-folding, and is
ctrl+v when no entry matches or the query failed. -/
theorem linux_paste_shortcut_first_match (text : String) (d : Nat)
    (ov : List (String × String)) (env : LinuxEnv)
    (ht : text ≠ "") (h1 : env.xselSpawnOk = true)
    (h2 : env.stdinWriteOk = true) (h3 : env.waitOk = true) :
    (typeTextLinux text d ov env).1.filter isPressKey
      = [Act.pressKey (pasteKeySpec ov env.classQuery)] := by
  have htb : (text == "") = false := by simp [ht]
  cases hk : env.keyOk <;>
    simp [typeTextLinux, htb, h1, h2, h3, hk, isPressKey, List.filter,
      resolvePasteKey_eq_spec]

/-- Witness for the amended C2 at a concrete input: query stdout with
surrounding whitespace and a differently cased override key. -/
theorem linux_paste_shortcut_first_match_witness :
    ("hello" : String) ≠ ""
      ∧ (typeTextLinux "hello" 150 [("Kitty", "ctrl+shift+v")]
            (LinuxEnv.mk true true true (some " kitty\n") true)).1.filter
            isPressKey
        = [Act.pressKey (pasteKeySpec [("Kitty", "ctrl+shift+v")]
            (LinuxEnv.mk true true true (some " kitty\n") true).classQuery)] :=
  ⟨by decide,
    linux_paste_shortcut_first_match "hello" 150 [("Kitty", "ctrl+shift+v")]
      (LinuxEnv.mk true true true (some " kitty\n") true)
      (by decide) rfl rfl rfl⟩

/-- Counterexample to C2 as stated: with two override keys that both match
the window class kitty under ASCII case-folding, the synthesized shortcut
is the first match ctrl+shift+v, so it does not equal the value alt+v of
the other matching entry, refuting the claim that the shortcut equals the
value of the entry whose key matches. -/
theorem linux_paste_shortcut_counterexample :
    ("KITTY", "alt+v") ∈ [("Kitty", "ctrl+shift+v"), ("KITTY", "alt+v")]
      ∧ lowercaseAscii "KITTY" = lowercaseAscii "kitty"
      ∧ (typeTextLinux "hi" 150 [("Kitty", "ctrl+shift+v"), ("KITTY", "alt+v")]
            (LinuxEnv.mk true true true (some "kitty") true)).1.filter
            isPressKey
        = [Act.pressKey "ctrl+shift+v"]
      ∧ ("ctrl+shift+v" : String) ≠ "alt+v" := by
  decide

/-- C3: the macOS script has the save, set, Cmd+V, 0.1 s delay, restore
shape the claim describes (first conjunct, on a benign text), but the
embedded text is not escaped as claimed: because the source escapes quotes
before doubling backslashes, a double quote in the text reaches the script
as backslash backslash quote, leaving the quote itself unescaped and
ending the AppleScript string literal early; the spec-shaped escaping
would produce backslash quote. -/
theorem macos_escape_order_divergence :
    buildAppleScript "hi"
        = "set oldClipboard to the clipboard\nset the clipboard to \"hi\"\ntell application \"System Events\"\nkeystroke \"v\" using command down\nend tell\ndelay 0.1\nset the clipboard to oldClipboard"
      ∧ macEscape "\"" = "\\\\\""
      ∧ macEscapeSpec "\"" = "\\\""
      ∧ macEscape "\"" ≠ macEscapeSpec "\""
      ∧ buildAppleScript "\""
        = appleScriptHeader ++ "\\\\\"" ++ appleScriptFooter :=
  ⟨rfl, rfl, rfl, by decide, rfl⟩

/-- C4 (amended): for every response with a non-success status, the client
returns an error whose message is the response body prefixed with the
string OpenAI API Error and a colon; the body appears verbatim as the
suffix, and no transcription text is returned since the result is an
error. -/
theorem nonsuccess_error_prefixes_body (status : Nat) (body : String)
    (parsed : Option String) (h : isSuccessStatus status = false) :
    transcribeWavBytes status body parsed
      = Except.error ("OpenAI API Error: " ++ body) := by
  simp [transcribeWavBytes, h]

/-- Witness for the amended C4 at status 401. -/
theorem nonsuccess_error_prefixes_body_witness :
    isSuccessStatus 401 = false
      ∧ transcribeWavBytes 401 "unauthorized" none
        = Except.error ("OpenAI API Error: " ++ "unauthorized") :=
  ⟨by decide, nonsuccess_error_prefixes_body 401 "unauthorized" none (by decide)⟩

/-- Counterexample to C4 as stated: at status 401 with body unauthorized
the returned error message carries the OpenAI API Error prefix, so it is
not the response body verbatim. -/
theorem nonsuccess_error_not_verbatim_counterexample :
    transcribeWavBytes 401 "unauthorized" none
        = Except.error "OpenAI API Error: unauthorized"
      ∧ transcribeWavBytes 401 "unauthorized" none
        ≠ Except.error "unauthorized" :=
  ⟨rfl, fun h => absurd (Except.error.inj h) (by decide)⟩

/-- C7: for every non-empty text, on both platforms the first action of
type_text is the initial sleep of initial_delay_ms, so no clipboard write
and no keystroke or script synthesis happens before that sleep
completes. -/
theorem initial_delay_precedes_injection (text : String) (d : Nat)
    (ov : List (String × String)) (env : LinuxEnv) (osaOk : Bool)
    (ht : text ≠ "") :
    (typeTextLinux text d ov env).1.head? = some (Act.sleepMs d)
      ∧ (typeTextMac text d osaOk).1.head? = some (Act.sleepMs d) := by
  have htb : (text == "") = false := by simp [ht]
  constructor
  · cases h1 : env.xselSpawnOk <;> cases h2 : env.stdinWriteOk <;>
      cases h3 : env.waitOk <;> cases hk : env.keyOk <;>
      simp [typeTextLinux, htb, h1, h2, h3, hk]
  · cases ho : osaOk <;> simp [typeTextMac, htb, ho]

/-- Witness for C7 at a concrete non-empty text. -/
theorem initial_delay_precedes_injection_witness :
    ("hi" : String) ≠ ""
      ∧ ((typeTextLinux "hi" 150 [] (LinuxEnv.mk true true true none true)).1.head?
           = some (Act.sleepMs 150)
         ∧ (typeTextMac "hi" 150 true).1.head? = some (Act.sleepMs 150)) :=
  ⟨by decide,
    initial_delay_precedes_injection "hi" 150 []
      (LinuxEnv.mk true true true none true) true (by decide)⟩

/-- C8: for empty text, type_text on both platforms performs no action at
all and returns Ok: no clipboard-set process, no keystroke synthesis, no
script runner. -/
theorem empty_text_no_injection (d : Nat) (ov : List (String × String))
    (env : LinuxEnv) (osaOk : Bool) :
    typeTextLinux "" d ov env = ([], Except.ok ())
      ∧ typeTextMac "" d osaOk = ([], Except.ok ()) := by
  constructor <;> rfl

/-- C10: when the window-class query command fails (Command::output
returns Err) and the other helpers succeed, type_text still returns Ok and
synthesizes the default ctrl+v shortcut; the query failure is not turned
into an error. -/
theorem linux_query_failure_defaults_ctrl_v (text : String) (d : Nat)
    (ov : List (String × String)) (env : LinuxEnv)
    (ht : text ≠ "") (h1 : env.xselSpawnOk = true)
    (h2 : env.stdinWriteOk = true) (h3 : env.waitOk = true)
    (hq : env.classQuery = none) (hk : env.keyOk = true) :
    typeTextLinux text d ov env
        = ([Act.sleepMs d, Act.spawnXsel, Act.writeClipboard text,
            Act.waitXsel, Act.sleepMs 50, Act.queryWindowClass,
            Act.pressKey "ctrl+v"], Except.ok ())
      ∧ Act.pressKey "ctrl+v" ∈ (typeTextLinux text d ov env).1 := by
  have htb : (text == "") = false := by simp [ht]
  have he : typeTextLinux text d ov env
      = ([Act.sleepMs d, Act.spawnXsel, Act.writeClipboard text,
          Act.waitXsel, Act.sleepMs 50, Act.queryWindowClass,
          Act.pressKey "ctrl+v"], Except.ok ()) := by
    simp [typeTextLinux, htb, h1, h2, h3, hq, hk, resolvePasteKey]
  refine ⟨he, ?_⟩
  rw [he]
  simp

/-- Witness for C10 at a concrete input with a failed query. -/
theorem linux_query_failure_defaults_ctrl_v_witness :
    ("hi" : String) ≠ ""
      ∧ (typeTextLinux "hi" 150 [("Kitty", "ctrl+shift+v")]
            (LinuxEnv.mk true true true none true)
          = ([Act.sleepMs 150, Act.spawnXsel, Act.writeClipboard "hi",
              Act.waitXsel, Act.sleepMs 50, Act.queryWindowClass,
              Act.pressKey "ctrl+v"], Except.ok ())
        ∧ Act.pressKey "ctrl+v"
            ∈ (typeTextLinux "hi" 150 [("Kitty", "ctrl+shift+v")]
                (LinuxEnv.mk true true true none true)).1) :=
  ⟨by decide,
    linux_query_failure_defaults_ctrl_v "hi" 150 [("Kitty", "ctrl+shift+v")]
      (LinuxEnv.mk true true true none true)
      (by decide) rfl rfl rfl rfl rfl⟩

/-- C5: in pw-record mode, on stop with a recorded file present, the file
is handed to the transcriber exactly when its metadata is readable and its
length exceeds 44 bytes; with unreadable metadata it is never handed
over. -/
theorem pw_file_sent_iff_size_above_44 (e : Bool) (p f : String)
    (jobEnv : Except String String) (n : Nat) :
    (MainAct.transcribeFileReq f
        ∈ pwReleaseTrace e p true (some f) (some n) jobEnv ↔ 44 < n)
      ∧ MainAct.transcribeFileReq f
        ∉ pwReleaseTrace e p true (some f) none jobEnv := by
  constructor
  · cases jobEnv <;> by_cases h : 44 < n <;>
      simp [pwReleaseTrace, pwRelease, sizeOk, h, expandPw, wavJobTrace]
  · cases jobEnv <;>
      simp [pwReleaseTrace, pwRelease, sizeOk, expandPw]

/-- Witness for C5: a 100-byte file is sent, an unreadable one is not. -/
theorem pw_file_sent_iff_size_above_44_witness :
    (MainAct.transcribeFileReq "/tmp/voice-ptt-1.wav"
        ∈ pwReleaseTrace true "end.oga" true (some "/tmp/voice-ptt-1.wav")
            (some 100) (Except.ok "hi") ↔ 44 < 100)
      ∧ MainAct.transcribeFileReq "/tmp/voice-ptt-1.wav"
        ∉ pwReleaseTrace true "end.oga" true (some "/tmp/voice-ptt-1.wav")
            none (Except.ok "hi") :=
  pw_file_sent_iff_size_above_44 true "end.oga" "/tmp/voice-ptt-1.wav"
    (Except.ok "hi") 100

/-- C6: in cpal mode, a release with an empty buffer snapshot clears the
gate and performs exactly the end-earcon invocation: the trace equation
shows no transcription job is spawned, hence no transcription request and
no injection occurs. -/
theorem cpal_empty_snapshot_release (e : Bool) (p : String)
    (jobEnv : Except String String) :
    cpalReleaseTrace e p true [] jobEnv = [MainAct.playSound e p]
      ∧ (cpalRelease e p true []).1 = false := by
  constructor <;> rfl

/-- C9: in pw-record mode, the release branch itself never deletes the
file (deletion appears only in the spawned job trace), so a recording
whose file fails the size check, where no job is spawned, is never
deleted. -/
theorem pw_failed_size_check_keeps_file (e : Bool) (p f : String)
    (meta : Option Nat) (jobEnv : Except String String)
    (h : sizeOk meta = false) :
    pwRelease e p true (some f) meta
        = [MainAct.killRecorder, MainAct.waitRecorder,
            MainAct.playSound e p, MainAct.warnEmptyFile]
      ∧ MainAct.removeFile f ∉ pwReleaseTrace e p true (some f) meta jobEnv
      ∧ MainAct.removeFile f ∉ pwRelease e p true (some f) meta := by
  have he : pwRelease e p true (some f) meta
      = [MainAct.killRecorder, MainAct.waitRecorder,
          MainAct.playSound e p, MainAct.warnEmptyFile] := by
    simp [pwRelease, h]
  refine ⟨he, ?_, ?_⟩
  · simp [pwReleaseTrace, he, expandPw]
  · rw [he]
    simp

/-- Witness for C9 at a concrete 44-byte file. -/
theorem pw_failed_size_check_keeps_file_witness :
    sizeOk (some 44) = false
      ∧ (pwRelease true "end.oga" true (some "/tmp/voice-ptt-2.wav") (some 44)
          = [MainAct.killRecorder, MainAct.waitRecorder,
              MainAct.playSound true "end.oga", MainAct.warnEmptyFile]
        ∧ MainAct.removeFile "/tmp/voice-ptt-2.wav"
            ∉ pwReleaseTrace true "end.oga" true (some "/tmp/voice-ptt-2.wav")
                (some 44) (Except.ok "hi")
        ∧ MainAct.removeFile "/tmp/voice-ptt-2.wav"
            ∉ pwRelease true "end.oga" true (some "/tmp/voice-ptt-2.wav")
                (some 44)) :=
  ⟨by decide,
    pw_failed_size_check_keeps_file true "end.oga" "/tmp/voice-ptt-2.wav"
      (some 44) (Except.ok "hi") (by decide)⟩
